import Mathlib

/-!
Shallow embedding of `src/2016/example_marginal_rates_joint.py` (python-taxes):
the finite-difference marginal-tax-rate engine for a married couple filing
jointly.  Monetary amounts are modelled as rationals (the Python code uses
floats with `disable_rounding = True`, so all arithmetic here is the exact
field arithmetic the script performs).  The external Tax Engine `F1040` is
opaque to this script: it is modelled as an arbitrary function from the
constructed input record to the total-liability line (`'63'`), passed in as a
parameter `engine`.
-/

namespace MarginalRates

/-- Filing status, from the external `form` module.  Only `JOINT` is used by
the script (`template['status'] = FilingStatus.JOINT`). -/
inductive FilingStatus where
  | JOINT
deriving DecidableEq, Repr

/-- The fixed template dict created at module level:
`{'status': JOINT, 'exemptions': 2, 'disable_rounding': True}`. -/
structure FilingTemplate where
  status : FilingStatus
  exemptions : ℕ
  disable_rounding : Bool
deriving DecidableEq, Repr

/-- The module-level `template` constant. -/
def template : FilingTemplate :=
  { status := FilingStatus.JOINT, exemptions := 2, disable_rounding := true }

/-- `SOCIAL_SECURITY_MAX = 117000`. -/
def SOCIAL_SECURITY_MAX : ℚ := 117000

/-- `MEDICARE_RATE = .0145`. -/
def MEDICARE_RATE : ℚ := 145 / 10000

/-- The input dict passed to `F1040`: the deep copy of the template plus the
fields added by `compute_with_income`.  The sub-dict `F1040sa` holds a single
line `'10'` (mortgage interest deduction), embedded as the field
`F1040sa_10`. -/
structure FilingInputs where
  status : FilingStatus
  exemptions : ℕ
  disable_rounding : Bool
  real_estate_taxes : ℚ
  wages : List ℚ
  wages_medicare : List ℚ
  medicare_withheld : List ℚ
  wages_ss : List ℚ
  state_withholding : ℚ
  capital_gain_long : ℚ
  amt_basis_adjustment : ℚ
  F1040sa_10 : ℚ
deriving DecidableEq, Repr

/-- `compute_with_income(template, incomes, capital_gains, re_tax,
mortgage_interest, amt_basis_adj)`: builds the `F1040` input record.
`medicare_withheld` reads `incomes[0]` and `incomes[1]` (every caller passes a
two-element list built by `calc_spouse_split`; `getD` stands in for the
indexing);  `wages_ss` caps each per-earner wage at `SOCIAL_SECURITY_MAX`
(`min(SOCIAL_SECURITY_MAX, income)` per earner);  `state_withholding` is
`(sum(incomes) + capital_gains) * .10`. -/
def compute_with_income (t : FilingTemplate) (incomes : List ℚ)
    (capital_gains re_tax mortgage_interest amt_basis_adj : ℚ) : FilingInputs :=
  { status := t.status
    exemptions := t.exemptions
    disable_rounding := t.disable_rounding
    real_estate_taxes := re_tax
    wages := incomes
    wages_medicare := incomes
    medicare_withheld := [incomes.getD 0 0 * MEDICARE_RATE,
                          incomes.getD 1 0 * MEDICARE_RATE]
    wages_ss := incomes.map (fun income => min SOCIAL_SECURITY_MAX income)
    state_withholding := (incomes.sum + capital_gains) * (10 / 100)
    capital_gain_long := capital_gains
    amt_basis_adjustment := amt_basis_adj
    F1040sa_10 := mortgage_interest }

/-- `DELTA = 10`: the fixed forward-difference step. -/
def DELTA : ℚ := 10

/-- `calc_spouse_split(total_income, ratio)`: splits total income across the
two spouses as `[total_income * ratio, total_income * (1 - ratio)]`.  The
ratio parameter (default 0.5 in the script) is named `frac` here. -/
def calc_spouse_split (total_income : ℚ) (frac : ℚ) : List ℚ :=
  [total_income * frac, total_income * (1 - frac)]

/-- The `base_args` keyword dict built inside `calc_rates`:
`dict(incomes=…, capital_gains=ltcg, amt_basis_adj=…, mortgage_interest=…,
re_tax=…)`. -/
structure CalcArgs where
  incomes : List ℚ
  capital_gains : ℚ
  amt_basis_adj : ℚ
  mortgage_interest : ℚ
  re_tax : ℚ
deriving DecidableEq, Repr

/-- The base argument dict: incomes come from `calc_spouse_split(income,
ratio=spouse_ratio)`, the remaining knobs are passed through unchanged. -/
def base_args (income frac capital_gains amt_basis_adj mortgage_interest re_tax : ℚ) :
    CalcArgs :=
  { incomes := calc_spouse_split income frac
    capital_gains := capital_gains
    amt_basis_adj := amt_basis_adj
    mortgage_interest := mortgage_interest
    re_tax := re_tax }

/-- The `next_args = base_args.copy()` dict after the single in-place update
performed by the branch of `calc_rates` selected by `rate`: one dimension is
bumped by `DELTA` (for `'MARGINAL'`, the incomes are re-split from
`income + DELTA` with the same ratio); every other entry is the copied base
entry. -/
def next_args (rate : String) (income frac : ℚ) (b : CalcArgs) : CalcArgs :=
  if rate = "LTCG_MARGINAL" then
    { b with capital_gains := b.capital_gains + DELTA }
  else if rate = "INT_DEDUCTION_MARGINAL" then
    { b with mortgage_interest := b.mortgage_interest + DELTA }
  else if rate = "RE_DEDUCTION_MARGINAL" then
    { b with re_tax := b.re_tax + DELTA }
  else if rate = "MARGINAL" then
    { b with incomes := calc_spouse_split (income + DELTA) frac }
  else b

/-- The record handed to `F1040` for an argument dict:
`compute_with_income(template, **args)`. -/
def record_of (a : CalcArgs) : FilingInputs :=
  compute_with_income template a.incomes a.capital_gains a.re_tax
    a.mortgage_interest a.amt_basis_adj

/-- One invocation of the Tax Engine on an argument dict, reading the
total-liability line `'63'` of the resulting `F1040` object. -/
def runEngine (engine : FilingInputs → ℚ) (a : CalcArgs) : ℚ :=
  engine (record_of a)

/-- Result of one `calc_rates` call.  `val` is an ordinary return value;
`divFault` marks the unguarded division `fbase['63'] / (income + ltcg)`
evaluated with a zero denominator (a `ZeroDivisionError` in Python — there is
no guard in the source);  `noReturn` marks falling off the end of the
`if`/`elif` chain, which in Python returns `None`. -/
inductive RateResult where
  | val (x : ℚ)
  | divFault
  | noReturn
deriving DecidableEq, Repr

/-- `calc_rates(income, re_tax, ltcg, amt_basis_adj, mortgage_interest, rate,
spouse_ratio)` for one scalar income (the `@np.vectorize` wrapper maps this
over the income grid; see `sweep_rates`).  The base profile is always built
and evaluated first; the branch on the `rate` string then either evaluates a
perturbed profile and returns the forward difference quotient, divides by
`income + ltcg` (EFFECTIVE), returns the base liability (TOTAL), or falls
through (no `else` in the source). -/
def calc_rates (engine : FilingInputs → ℚ) (income : ℚ)
    (re_tax ltcg amt_basis_adj mortgage_interest : ℚ)
    (rate : String) (frac : ℚ) : RateResult :=
  let b := base_args income frac ltcg amt_basis_adj mortgage_interest re_tax
  let fbase := runEngine engine b
  if rate = "LTCG_MARGINAL" then
    RateResult.val ((runEngine engine (next_args rate income frac b) - fbase) / DELTA)
  else if rate = "INT_DEDUCTION_MARGINAL" then
    RateResult.val ((runEngine engine (next_args rate income frac b) - fbase) / DELTA)
  else if rate = "RE_DEDUCTION_MARGINAL" then
    RateResult.val ((runEngine engine (next_args rate income frac b) - fbase) / DELTA)
  else if rate = "MARGINAL" then
    RateResult.val ((runEngine engine (next_args rate income frac b) - fbase) / DELTA)
  else if rate = "EFFECTIVE" then
    if income + ltcg = 0 then RateResult.divFault
    else RateResult.val (fbase / (income + ltcg))
  else if rate = "TOTAL" then
    RateResult.val fbase
  else RateResult.noReturn

/-- The sequence of records on which `calc_rates` invokes the Tax Engine, in
order.  `fbase = compute_with_income(template, **base_args)` runs before the
dispatch on `rate`, so the base record is evaluated for every `rate` value,
recognized or not; the `'MARGINAL'` branch constructs (hence evaluates) the
perturbed record twice — the source repeats the `fnext = …` line. -/
def calc_rates_calls (income : ℚ)
    (re_tax ltcg amt_basis_adj mortgage_interest : ℚ)
    (rate : String) (frac : ℚ) : List FilingInputs :=
  let b := base_args income frac ltcg amt_basis_adj mortgage_interest re_tax
  if rate = "LTCG_MARGINAL" then
    [record_of b, record_of (next_args rate income frac b)]
  else if rate = "INT_DEDUCTION_MARGINAL" then
    [record_of b, record_of (next_args rate income frac b)]
  else if rate = "RE_DEDUCTION_MARGINAL" then
    [record_of b, record_of (next_args rate income frac b)]
  else if rate = "MARGINAL" then
    [record_of b, record_of (next_args rate income frac b),
     record_of (next_args rate income frac b)]
  else [record_of b]

/-- `MIN_WAGES = 10000`. -/
def MIN_WAGES : ℚ := 10000

/-- `MAX_WAGES = 1000000`. -/
def MAX_WAGES : ℚ := 1000000

/-- `WAGES_STEP = 10000`. -/
def WAGES_STEP : ℚ := 10000

/-- `np.arange(start, stop, step)` for positive step: the values
`start + step * i` for `i = 0, …, ⌈(stop - start) / step⌉ - 1`. -/
def arange (start stop step : ℚ) : List ℚ :=
  (List.range (⌈(stop - start) / step⌉.toNat)).map (fun (i : ℕ) => start + step * (i : ℚ))

/-- `incomes = np.arange(MIN_WAGES, MAX_WAGES, WAGES_STEP)`: the income sweep
grid 10000, 20000, …, 990000. -/
def incomes : List ℚ := arange MIN_WAGES MAX_WAGES WAGES_STEP

/-- The `@np.vectorize` behaviour of `calc_rates` over an income array, as
used by `update()`: elementwise application, the scalar knobs and the rate
kind held fixed. -/
def sweep_rates (engine : FilingInputs → ℚ) (grid : List ℚ)
    (re_tax ltcg amt_basis_adj mortgage_interest : ℚ)
    (rate : String) (frac : ℚ) : List RateResult :=
  grid.map (fun income =>
    calc_rates engine income re_tax ltcg amt_basis_adj mortgage_interest rate frac)

end MarginalRates

namespace MarginalRates

/-- Helper: the element count of the income grid,
`ceil((MAX_WAGES - MIN_WAGES) / WAGES_STEP) = 99`. -/
lemma ceil_count : (⌈((MAX_WAGES - MIN_WAGES) / WAGES_STEP : ℚ)⌉).toNat = 99 := by
  have h : (⌈((MAX_WAGES - MIN_WAGES) / WAGES_STEP : ℚ)⌉) = 99 := by
    norm_num [MIN_WAGES, MAX_WAGES, WAGES_STEP]
  rw [h]; rfl

/-- Helper: the income grid written as an explicit range map. -/
lemma incomes_eq :
    incomes = (List.range 99).map (fun (i : ℕ) => (10000 : ℚ) + 10000 * (i : ℚ)) := by
  unfold incomes arange
  rw [ceil_count]
  norm_num [MIN_WAGES, WAGES_STEP]

/-- Helper: the income grid has 99 points. -/
lemma incomes_length : incomes.length = 99 := by
  rw [incomes_eq, List.length_map, List.length_range]

/-- C1: for every marginal-rate computation (wage, capital-gains,
local-tax-deduction, mortgage-interest-deduction), exactly one input
dimension of the perturbed argument dict differs from the base dict — the
perturbed dimension changes (by `DELTA`, or by re-splitting `income + DELTA`
with the same ratio for the wage kind) and every other dimension is the
copied base entry; and the template fields (status, exemptions,
disable_rounding) of the two constructed input records are always
identical. -/
theorem perturbation_isolation (w f cg ab mi re : ℚ) :
    ((next_args "LTCG_MARGINAL" w f (base_args w f cg ab mi re)).incomes
        = (base_args w f cg ab mi re).incomes
      ∧ (next_args "LTCG_MARGINAL" w f (base_args w f cg ab mi re)).amt_basis_adj
        = (base_args w f cg ab mi re).amt_basis_adj
      ∧ (next_args "LTCG_MARGINAL" w f (base_args w f cg ab mi re)).mortgage_interest
        = (base_args w f cg ab mi re).mortgage_interest
      ∧ (next_args "LTCG_MARGINAL" w f (base_args w f cg ab mi re)).re_tax
        = (base_args w f cg ab mi re).re_tax
      ∧ (next_args "LTCG_MARGINAL" w f (base_args w f cg ab mi re)).capital_gains
        ≠ (base_args w f cg ab mi re).capital_gains)
  ∧ ((next_args "INT_DEDUCTION_MARGINAL" w f (base_args w f cg ab mi re)).incomes
        = (base_args w f cg ab mi re).incomes
      ∧ (next_args "INT_DEDUCTION_MARGINAL" w f (base_args w f cg ab mi re)).capital_gains
        = (base_args w f cg ab mi re).capital_gains
      ∧ (next_args "INT_DEDUCTION_MARGINAL" w f (base_args w f cg ab mi re)).amt_basis_adj
        = (base_args w f cg ab mi re).amt_basis_adj
      ∧ (next_args "INT_DEDUCTION_MARGINAL" w f (base_args w f cg ab mi re)).re_tax
        = (base_args w f cg ab mi re).re_tax
      ∧ (next_args "INT_DEDUCTION_MARGINAL" w f (base_args w f cg ab mi re)).mortgage_interest
        ≠ (base_args w f cg ab mi re).mortgage_interest)
  ∧ ((next_args "RE_DEDUCTION_MARGINAL" w f (base_args w f cg ab mi re)).incomes
        = (base_args w f cg ab mi re).incomes
      ∧ (next_args "RE_DEDUCTION_MARGINAL" w f (base_args w f cg ab mi re)).capital_gains
        = (base_args w f cg ab mi re).capital_gains
      ∧ (next_args "RE_DEDUCTION_MARGINAL" w f (base_args w f cg ab mi re)).amt_basis_adj
        = (base_args w f cg ab mi re).amt_basis_adj
      ∧ (next_args "RE_DEDUCTION_MARGINAL" w f (base_args w f cg ab mi re)).mortgage_interest
        = (base_args w f cg ab mi re).mortgage_interest
      ∧ (next_args "RE_DEDUCTION_MARGINAL" w f (base_args w f cg ab mi re)).re_tax
        ≠ (base_args w f cg ab mi re).re_tax)
  ∧ ((next_args "MARGINAL" w f (base_args w f cg ab mi re)).capital_gains
        = (base_args w f cg ab mi re).capital_gains
      ∧ (next_args "MARGINAL" w f (base_args w f cg ab mi re)).amt_basis_adj
        = (base_args w f cg ab mi re).amt_basis_adj
      ∧ (next_args "MARGINAL" w f (base_args w f cg ab mi re)).mortgage_interest
        = (base_args w f cg ab mi re).mortgage_interest
      ∧ (next_args "MARGINAL" w f (base_args w f cg ab mi re)).re_tax
        = (base_args w f cg ab mi re).re_tax
      ∧ (next_args "MARGINAL" w f (base_args w f cg ab mi re)).incomes
        = calc_spouse_split (w + DELTA) f
      ∧ (next_args "MARGINAL" w f (base_args w f cg ab mi re)).incomes
        ≠ (base_args w f cg ab mi re).incomes)
  ∧ (∀ a1 a2 : CalcArgs, (record_of a1).status = (record_of a2).status
      ∧ (record_of a1).exemptions = (record_of a2).exemptions
      ∧ (record_of a1).disable_rounding = (record_of a2).disable_rounding) := by
  refine ⟨⟨rfl, rfl, rfl, rfl, ?_⟩, ⟨rfl, rfl, rfl, rfl, ?_⟩, ⟨rfl, rfl, rfl, rfl, ?_⟩,
          ⟨rfl, rfl, rfl, rfl, rfl, ?_⟩, fun a1 a2 => ⟨rfl, rfl, rfl⟩⟩
  · show cg + DELTA ≠ cg
    simp [DELTA]
  · show mi + DELTA ≠ mi
    simp [DELTA]
  · show re + DELTA ≠ re
    simp [DELTA]
  · show calc_spouse_split (w + DELTA) f ≠ calc_spouse_split w f
    intro hEq
    simp only [calc_spouse_split, DELTA, List.cons.injEq, and_true] at hEq
    obtain ⟨h1, h2⟩ := hEq
    have hf : f = 0 := by linear_combination h1 / 10
    rw [hf] at h2
    norm_num at h2

/-- Witness for C1 at a concrete household: the wage-marginal perturbation
really changes the incomes dimension. -/
theorem perturbation_isolation_witness :
    (next_args "MARGINAL" 100000 (1/2) (base_args 100000 (1/2) 0 0 0 0)).incomes
      ≠ (base_args 100000 (1/2) 0 0 0 0).incomes :=
  (perturbation_isolation 100000 (1/2) 0 0 0 0).2.2.2.1.2.2.2.2.2

/-- C2/code-divergence: requesting the EFFECTIVE rate with
`income + ltcg == 0` reaches the unguarded division
`fbase['63'] / (income + ltcg)` and faults; no sentinel value is returned.
This holds for every Tax Engine and every setting of the other knobs. -/
theorem effective_rate_division_fault (engine : FilingInputs → ℚ)
    (income re_tax ltcg amt_basis_adj mortgage_interest frac : ℚ)
    (h : income + ltcg = 0) :
    calc_rates engine income re_tax ltcg amt_basis_adj mortgage_interest "EFFECTIVE" frac
      = RateResult.divFault := by
  simp [calc_rates, h]

/-- Witness for C2 at the concrete boundary input income = 0, ltcg = 0. -/
theorem effective_rate_division_fault_witness :
    calc_rates (fun _ => 0) 0 0 0 0 0 "EFFECTIVE" (1/2) = RateResult.divFault :=
  effective_rate_division_fault (fun _ => 0) 0 0 0 0 0 (1/2) (by norm_num)

/-- C3: for every marginal rate kind the returned value is
`(nextLiability - baseLiability) / DELTA`, where both liabilities are the
engine's total-liability line on the perturbed and base records, and `DELTA`
is the fixed constant 10. -/
theorem marginal_diff_quotient (engine : FilingInputs → ℚ)
    (income re_tax ltcg amt_basis_adj mortgage_interest frac : ℚ) :
    DELTA = 10
  ∧ ∀ rate ∈ (["LTCG_MARGINAL", "INT_DEDUCTION_MARGINAL",
               "RE_DEDUCTION_MARGINAL", "MARGINAL"] : List String),
      calc_rates engine income re_tax ltcg amt_basis_adj mortgage_interest rate frac
        = RateResult.val
            ((runEngine engine (next_args rate income frac
                (base_args income frac ltcg amt_basis_adj mortgage_interest re_tax))
              - runEngine engine
                  (base_args income frac ltcg amt_basis_adj mortgage_interest re_tax))
             / DELTA) := by
  refine ⟨rfl, ?_⟩
  intro rate hr
  simp only [List.mem_cons, List.not_mem_nil, or_false] at hr
  rcases hr with rfl | rfl | rfl | rfl <;> rfl

/-- Witness for C3 at the wage-marginal kind with a concrete stub engine. -/
theorem marginal_diff_quotient_witness :
    calc_rates (fun r => r.wages.sum / 4) 100000 0 0 0 0 "MARGINAL" (1/2)
      = RateResult.val
          ((runEngine (fun r => r.wages.sum / 4)
              (next_args "MARGINAL" 100000 (1/2) (base_args 100000 (1/2) 0 0 0 0))
            - runEngine (fun r => r.wages.sum / 4) (base_args 100000 (1/2) 0 0 0 0))
           / DELTA) :=
  (marginal_diff_quotient (fun r => r.wages.sum / 4) 100000 0 0 0 0 (1/2)).2
    "MARGINAL" (by simp)

/-- C4: for the wage-marginal kind the perturbed per-earner wages are
obtained by re-splitting `income + DELTA` with the same ratio — both
earners shift proportionally (`+ DELTA * frac` and `+ DELTA * (1 - frac)`)
— and (whenever the ratio is not degenerate, i.e. not 0 or 1) the result is
NOT what adding `DELTA` to a single earner would give. -/
theorem wage_marginal_resplit (income frac cg ab mi re : ℚ) :
    (next_args "MARGINAL" income frac (base_args income frac cg ab mi re)).incomes
      = calc_spouse_split (income + DELTA) frac
  ∧ (next_args "MARGINAL" income frac (base_args income frac cg ab mi re)).incomes
      = [income * frac + DELTA * frac, income * (1 - frac) + DELTA * (1 - frac)]
  ∧ (frac ≠ 0 → frac ≠ 1 →
      (next_args "MARGINAL" income frac (base_args income frac cg ab mi re)).incomes
        ≠ [income * frac + DELTA, income * (1 - frac)]
      ∧ (next_args "MARGINAL" income frac (base_args income frac cg ab mi re)).incomes
        ≠ [income * frac, income * (1 - frac) + DELTA]) := by
  refine ⟨rfl, ?_, ?_⟩
  · show calc_spouse_split (income + DELTA) frac = _
    simp only [calc_spouse_split, DELTA, List.cons.injEq, and_true]
    constructor <;> ring
  · intro hf0 hf1
    constructor
    · show calc_spouse_split (income + DELTA) frac ≠ _
      intro hEq
      simp only [calc_spouse_split, DELTA, List.cons.injEq, and_true] at hEq
      obtain ⟨h1, h2⟩ := hEq
      exact hf1 (by linear_combination h1 / 10)
    · show calc_spouse_split (income + DELTA) frac ≠ _
      intro hEq
      simp only [calc_spouse_split, DELTA, List.cons.injEq, and_true] at hEq
      obtain ⟨h1, h2⟩ := hEq
      exact hf0 (by linear_combination h1 / 10)

/-- Witness for C4 at income = 100000 with the even split. -/
theorem wage_marginal_resplit_witness :
    (next_args "MARGINAL" 100000 (1/2) (base_args 100000 (1/2) 0 0 0 0)).incomes
      ≠ [100000 * (1/2 : ℚ) + DELTA, 100000 * (1 - 1/2 : ℚ)] :=
  ((wage_marginal_resplit 100000 (1/2) 0 0 0 0).2.2 (by norm_num) (by norm_num)).1

/-- C5: `calc_spouse_split(total, ratio) = [total * ratio,
total * (1 - ratio)]` for every total and every ratio (no range check, pure
arithmetic pass-through); the even split gives two equal halves, and the two
components always sum exactly to the total. -/
theorem calc_spouse_split_contract (total frac : ℚ) :
    calc_spouse_split total frac = [total * frac, total * (1 - frac)]
  ∧ calc_spouse_split total (1/2) = [total / 2, total / 2]
  ∧ (calc_spouse_split total frac).sum = total := by
  refine ⟨rfl, ?_, ?_⟩
  · simp [calc_spouse_split]
    constructor <;> ring
  · simp [calc_spouse_split]
    ring

/-- C6: the TOTAL kind performs no perturbation and returns exactly the
engine's total-liability line on the record built from the fixed template
and the base profile. -/
theorem total_rate_consistency (engine : FilingInputs → ℚ)
    (income re_tax ltcg amt_basis_adj mortgage_interest frac : ℚ) :
    calc_rates engine income re_tax ltcg amt_basis_adj mortgage_interest "TOTAL" frac
      = RateResult.val (engine (compute_with_income template (calc_spouse_split income frac)
          ltcg re_tax mortgage_interest amt_basis_adj)) := rfl

/-- C7: in every record built by `compute_with_income` the
state-tax-withholding field is 10% of (total wages + capital gains), and at
a concrete input this differs from the 9% rate stated in the design
intent. -/
theorem state_withholding_ten_percent (t : FilingTemplate) (incomes : List ℚ)
    (capital_gains re_tax mortgage_interest amt_basis_adj : ℚ) :
    (compute_with_income t incomes capital_gains re_tax
        mortgage_interest amt_basis_adj).state_withholding
      = (incomes.sum + capital_gains) * (10 / 100)
  ∧ (compute_with_income template [100, 0] 0 0 0 0).state_withholding
      ≠ (((100 : ℚ) + 0) + 0) * (9 / 100) := by
  refine ⟨rfl, ?_⟩
  norm_num [compute_with_income]

/-- Witness for C7 at a concrete household. -/
theorem state_withholding_ten_percent_witness :
    (compute_with_income template [50000, 50000] 1000 0 0 0).state_withholding
      = (([50000, 50000] : List ℚ).sum + 1000) * (10 / 100) :=
  (state_withholding_ten_percent template [50000, 50000] 1000 0 0 0).1

/-- C8: each earner's Social-Security-subject wage is that earner's wage
capped at the fixed maximum 117000, applied per earner — a couple whose
combined wages exceed the cap but whose individual wages do not is left
uncapped — and a negative per-earner wage passes through `min`
unchanged. -/
theorem wages_ss_per_earner_cap (t : FilingTemplate) (incomes : List ℚ)
    (capital_gains re_tax mortgage_interest amt_basis_adj : ℚ) :
    (compute_with_income t incomes capital_gains re_tax
        mortgage_interest amt_basis_adj).wages_ss
      = incomes.map (fun income => min SOCIAL_SECURITY_MAX income)
  ∧ (compute_with_income template [100000, 100000] 0 0 0 0).wages_ss = [100000, 100000]
  ∧ (compute_with_income template [150000, 130000] 0 0 0 0).wages_ss = [117000, 117000]
  ∧ (compute_with_income template [-5, 200000] 0 0 0 0).wages_ss = [-5, 117000] := by
  refine ⟨rfl, ?_, ?_, ?_⟩ <;>
    norm_num [compute_with_income, SOCIAL_SECURITY_MAX, min_def]

/-- C9: for every rate kind and every knob setting, sweeping `calc_rates`
over the income grid yields one output per grid element, in the same length
and order, each computed independently at that grid point; the grid itself
is 10000, 20000, …, 990000 — 99 points from 10000 up to but excluding
1000000 in steps of 10000. -/
theorem sweep_grid_shape (engine : FilingInputs → ℚ)
    (re_tax ltcg amt_basis_adj mortgage_interest : ℚ) (rate : String) (frac : ℚ) :
    (sweep_rates engine incomes re_tax ltcg amt_basis_adj mortgage_interest rate frac).length
      = incomes.length
  ∧ incomes.length = 99
  ∧ (∀ (i : ℕ) (h : i < incomes.length),
      incomes.get ⟨i, h⟩ = 10000 + 10000 * (i : ℚ))
  ∧ (∀ x ∈ incomes, MIN_WAGES ≤ x ∧ x < MAX_WAGES)
  ∧ (∀ (i : ℕ) (h : i < incomes.length)
      (h2 : i < (sweep_rates engine incomes re_tax ltcg amt_basis_adj
                    mortgage_interest rate frac).length),
      (sweep_rates engine incomes re_tax ltcg amt_basis_adj
          mortgage_interest rate frac).get ⟨i, h2⟩
        = calc_rates engine (incomes.get ⟨i, h⟩) re_tax ltcg amt_basis_adj
            mortgage_interest rate frac) := by
  refine ⟨by simp [sweep_rates], incomes_length, ?_, ?_, ?_⟩
  · intro i h
    simp only [List.get_eq_getElem, incomes_eq, List.getElem_map, List.getElem_range]
  · rw [incomes_eq]
    intro x hx
    simp only [List.mem_map, List.mem_range] at hx
    obtain ⟨i, hi, rfl⟩ := hx
    have hc : (i : ℚ) ≤ 98 := by exact_mod_cast Nat.lt_succ_iff.mp hi
    have hc0 : (0 : ℚ) ≤ (i : ℚ) := by positivity
    constructor
    · norm_num [MIN_WAGES]
    · norm_num [MAX_WAGES]; linarith
  · intro i h h2
    simp only [sweep_rates, List.get_eq_getElem, List.getElem_map]

/-- Witness for C9: the fifth grid point is 50000. -/
theorem sweep_grid_shape_witness :
    incomes.get ⟨4, (by rw [incomes_length]; norm_num)⟩ = 10000 + 10000 * ((4 : ℕ) : ℚ) :=
  (sweep_grid_shape (fun _ => 0) 0 0 0 0 "TOTAL" (1/2)).2.2.1 4
    (by rw [incomes_length]; norm_num)

/-- C10: for every rate-kind string not among the six recognized values the
dispatch falls through with no default branch, returning Python's `None`
(`noReturn` here) rather than faulting — and the base profile has
nonetheless already been evaluated through the Tax Engine (the call trace
is exactly the singleton base record). -/
theorem unknown_rate_falls_through (engine : FilingInputs → ℚ)
    (income re_tax ltcg amt_basis_adj mortgage_interest frac : ℚ) (rate : String)
    (h : rate ∉ (["LTCG_MARGINAL", "INT_DEDUCTION_MARGINAL", "RE_DEDUCTION_MARGINAL",
                  "MARGINAL", "EFFECTIVE", "TOTAL"] : List String)) :
    calc_rates engine income re_tax ltcg amt_basis_adj mortgage_interest rate frac
      = RateResult.noReturn
  ∧ calc_rates_calls income re_tax ltcg amt_basis_adj mortgage_interest rate frac
      = [record_of (base_args income frac ltcg amt_basis_adj mortgage_interest re_tax)] := by
  simp only [List.mem_cons, List.not_mem_nil, or_false, not_or] at h
  obtain ⟨h1, h2, h3, h4, h5, h6⟩ := h
  constructor
  · simp [calc_rates, h1, h2, h3, h4, h5, h6]
  · simp [calc_rates_calls, h1, h2, h3, h4]

/-- Witness for C10 at the concrete unrecognized kind "GARBAGE". -/
theorem unknown_rate_falls_through_witness :
    calc_rates (fun _ => 0) 100000 0 0 0 0 "GARBAGE" (1/2) = RateResult.noReturn :=
  (unknown_rate_falls_through (fun _ => 0) 100000 0 0 0 0 (1/2) "GARBAGE" (by decide)).1

end MarginalRates
